import Mathlib

/-!
Shallow embedding of the real-time voice session controller of this
repository (src/app/voice_live_handler.py, class VoiceLiveCommunicationHandler,
and src/app/communication_handler.py, class CommunicationHandler).

The handler processes messages from the Voice-Service websocket one at a
time; all mutable state lives on the handler object.  We model the handler
state as a structure, an incoming decoded message as a structure mirroring
the JSON fields the code reads, and each handler method as a pure function
from state (plus the current wall-clock time in milliseconds, standing for
`time.time()`) to a new state together with the lists of messages sent to
the Voice-Service websocket and to the telephony (ACS) websocket.

Python truthiness of optional strings (`if self._current_response_id:`)
is modelled by `pyTruthyStr`; `x == optional` comparisons (a string is
never `==` to `None` in Python) by `pyEqOpt`.  Python's `match` statement
runs only the FIRST matching `case`; the source file contains duplicated
`case` patterns, so the later duplicates are unreachable, and the
if-then-else chain below reproduces the source's case order exactly,
including the dead arms.
-/

/-- Messages sent to the Voice-Service websocket (`self.voice_live_ws.send`),
with only the fields the code actually varies. `itemCreateFunctionOutput`
is a `conversation.item.create` carrying a `function_call_output` item;
`sessionUpdateFallback` abstracts the voice-fallback `session.update` body. -/
inductive VoiceOut where
  | itemCreateFunctionOutput (callId : String) (output : String)
  | responseCreate
  | responseCancel
  | inputBufferClear
  | itemTruncate (itemId : String) (contentIndex : Nat) (audioEndMs : Nat)
  | outputBufferClear
  | sessionUpdateFallback
  deriving DecidableEq, Repr

/-- Messages sent to the telephony (ACS) websocket via `send_message_async`. -/
inductive AcsOut where
  | audioData (data : String)
  | stopAudio
  deriving DecidableEq, Repr

/-- Outcome of `json.loads` on the accumulated tool-call `arguments` text:
either it parsed (`parsed raw`, the handler then receives the parsed form
of `raw`) or `json.JSONDecodeError` was raised (`malformed raw`). -/
inductive FnArgs where
  | parsed (raw : String)
  | malformed (raw : String)
  deriving DecidableEq, Repr

/-- Result of one invocation of a registered tool handler
(`await handler(args)` inside `_handle_function_call`): a plain string
result (`textResult`), a dict result already rendered through
`json.dumps(result.get("output", result))` (`jsonResult`), or a raised
exception (`exn`). -/
inductive HandlerOutcome where
  | textResult (s : String)
  | jsonResult (dumped : String)
  | exn
  deriving DecidableEq, Repr

/-- The injected function registry, `self.agent_config.get_function_handler`:
`none` models a function name that resolves to no handler. -/
abbrev Registry := String → Option (String → HandlerOutcome)

/-- Mutable state of `VoiceLiveCommunicationHandler` (the fields touched by
the message-processing loop; connection/auth scaffolding is omitted).
Times are wall-clock epoch milliseconds. -/
structure HandlerState where
  /-- Models `self._current_response_id` -/
  currentResponseId : Option String := none
  /-- Models `self._current_response_audio_queue` -/
  audioQueue : List String := []
  /-- Models `self._is_streaming_audio` -/
  isStreamingAudio : Bool := false
  /-- Models `self._response_items` -/
  responseItems : List String := []
  /-- Models `self._call_start_time` (epoch ms) -/
  callStartTime : Option Nat := none
  /-- Models `self._audio_stream_start_time` (epoch ms) -/
  audioStreamStartTime : Option Nat := none
  /-- Models `self.is_connected` -/
  isConnected : Bool := true
  /-- Models `self._voice_override_sent` (set in `_configure_session`) -/
  voiceOverrideSent : Bool := true
  /-- Models `self._voice_override_fallback_done` -/
  voiceOverrideFallbackDone : Bool := false
  deriving DecidableEq, Repr

/-- Python truthiness of an optional string: `None` and `""` are falsy. -/
def pyTruthyStr : Option String → Bool
  | none => false
  | some s => s != ""

/-- Python `x == opt` where `opt` is a string or `None`: a string is never
equal to `None`. -/
def pyEqOpt : Option String → String → Bool
  | none, _ => false
  | some s, x => s == x

/-- A decoded Voice-Service message, mirroring the JSON fields
`_handle_voice_live_message` reads.  `itemId` is the effective item id
(`message.get("item_id","")` falling back to the id inside the `item` dict),
`responseId` likewise (`response_id` or `response.id`); absent fields
default to `""`, matching the `.get(..., "")` defaults. `delta` is the
audio payload of `response.audio.delta` (`""` models absent/empty, both
falsy). `isVoiceError` records the outcome of the voice-override error
detection in the `error` case. -/
structure VoiceMsg where
  type : String
  itemId : String := ""
  responseId : String := ""
  callId : String := ""
  /-- Models `message.get("item", \x7b\x7d).get("type", "unknown")` -/
  itemType : String := ""
  /-- Models `message.get("item", \x7b\x7d).get("role", "")` -/
  itemRole : String := ""
  delta : String := ""
  /-- Models `message.get("name")`, the function name of a tool call -/
  fnName : String := ""
  args : FnArgs := .parsed ("")
  isVoiceError : Bool := false
  deriving DecidableEq, Repr

/-- Renders `json.dumps` of the dict with keys `success` (False) and `error` (m),
exactly as the code produces it. -/
def failureOutput (m : String) : String :=
  "\x7b\"success\": false, \"error\": \"" ++ m ++ "\"\x7d"

/-- Models `_handle_user_interruption`: the seven "layers" of the barge-in
protocol, returning the new state and the upstream messages in emission
order.  Each websocket send sits in its own `try/except`; `truncFails i`
says whether the `conversation.item.truncate` send for item `i` raises
(a failed send is logged and skipped, the loop continues).  `now` is
`time.time()` in epoch ms, so `audio_end_ms = int(time.time() * 1000)`
becomes `now`. -/
def handleUserInterruption (s : HandlerState) (now : Nat)
    (truncFails : String → Bool) : HandlerState × List VoiceOut :=
  -- LAYER 3: response.cancel only if a response id is tracked (truthy)
  let cancelMsgs := if pyTruthyStr s.currentResponseId then [VoiceOut.responseCancel] else []
  -- LAYER 5: one truncate per tracked item, per-item error boundary
  let truncMsgs := s.responseItems.filterMap fun i =>
    if truncFails i then none else some (VoiceOut.itemTruncate i 0 now)
  -- LAYERS 1, 2, 6: local state reset (streaming off, timing cleared,
  -- queue cleared, response id and tracked items dropped)
  let s' : HandlerState :=
    { s with isStreamingAudio := false, audioStreamStartTime := none,
             audioQueue := [], currentResponseId := none, responseItems := [] }
  -- emission order: cancel (L3), input clear (L4), truncates (L5), output clear (L7)
  (s', cancelMsgs ++ [VoiceOut.inputBufferClear] ++ truncMsgs ++ [VoiceOut.outputBufferClear])

/-- Models `_handle_function_call`: guard on missing name/call id, argument
parsing with the structured failure fallback, handler resolution and
invocation with the exception boundary.  Every path past the guard sends
exactly one `function_call_output` item followed by one `response.create`. -/
def handleFunctionCall (registry : Registry) (msg : VoiceMsg) : List VoiceOut :=
  -- `if not function_name or not call_id: return`
  if msg.fnName == "" || msg.callId == "" then []
  else
    match msg.args with
    | .malformed _ =>
        [VoiceOut.itemCreateFunctionOutput msg.callId
           (failureOutput ("Invalid function arguments received")),
         VoiceOut.responseCreate]
    | .parsed a =>
        match registry msg.fnName with
        | some h =>
            match h a with
            | .textResult out =>
                [VoiceOut.itemCreateFunctionOutput msg.callId out, VoiceOut.responseCreate]
            | .jsonResult out =>
                [VoiceOut.itemCreateFunctionOutput msg.callId out, VoiceOut.responseCreate]
            | .exn =>
                [VoiceOut.itemCreateFunctionOutput msg.callId
                   (failureOutput ("Error processing " ++ msg.fnName)),
                 VoiceOut.responseCreate]
        | none =>
            [VoiceOut.itemCreateFunctionOutput msg.callId
               (failureOutput ("Function " ++ msg.fnName ++ " not found")),
             VoiceOut.responseCreate]

/-- Models `receive_audio`: re-checks the streaming flag, then wraps the payload
in an `AudioData` envelope for the telephony websocket. -/
def receiveAudio (s : HandlerState) (d : String) : List AcsOut :=
  if !s.isStreamingAudio then [] else [AcsOut.audioData d]

/-- The body of the SECOND `case "input_audio_buffer.speech_started":`
(source lines 448-471).  Because Python's `match` runs only the first
matching case and an identical pattern occurs earlier (line 436), this
branch is unreachable; it is modelled separately so its guards (the 10 s
startup grace window and the 200 ms minimum-streaming guard) can be
stated.  `self._call_start_time` unset skips the grace check; a missing
`_audio_stream_start_time` skips the duration check (`hasattr`). -/
def speechStartedBargeIn (s : HandlerState) (now : Nat) :
    HandlerState × List VoiceOut × List AcsOut :=
  let grace : Bool :=
    match s.callStartTime with
    | some t0 => decide (now - t0 < 10000)
    | none => false
  if grace then (s, [], [])
  else if pyTruthyStr s.currentResponseId && s.isStreamingAudio then
    let early : Bool :=
      match s.audioStreamStartTime with
      | some t1 => decide (now - t1 < 200)
      | none => false
    if early then (s, [], [])
    else
      let (s', out) := handleUserInterruption s now (fun _ => false)
      (s', out, [])
  else (s, [], [])

/-- Models `_handle_voice_live_message`: one decoded message against the current
state.  The if-then-else chain reproduces the source `match`'s case order;
arms marked "dead" repeat an earlier case pattern and are unreachable,
exactly as in the source. -/
def handleVoiceLiveMessage (registry : Registry) (s : HandlerState)
    (msg : VoiceMsg) (now : Nat) : HandlerState × List VoiceOut × List AcsOut :=
  if msg.type == "session.created" then (s, [], [])
  else if msg.type == "session.updated" then (s, [], [])
  else if msg.type == "conversation.item.created" then
    -- user interruption: new user message while a response id is tracked
    if msg.itemType == "message" && msg.itemRole == "user"
        && pyTruthyStr s.currentResponseId then
      let (s', out) := handleUserInterruption s now (fun _ => false)
      (s', out, [])
    else (s, [], [])
  else if msg.type == "conversation.item.input_audio_transcription.completed" then
    (s, [], [])
  else if msg.type == "response.created" then
    ({ s with currentResponseId := some msg.responseId,
              isStreamingAudio := true,
              audioStreamStartTime := some now,
              responseItems := [] }, [], [])
  else if msg.type == "response.done" then
    -- reset response tracking; the response id of the message is not compared
    ({ s with currentResponseId := none,
              isStreamingAudio := false,
              audioStreamStartTime := none,
              responseItems := [] }, [], [])
  else if msg.type == "response.output_item.added" then
    if msg.itemId != "" && !(s.responseItems.contains msg.itemId) then
      ({ s with responseItems := s.responseItems ++ [msg.itemId] }, [], [])
    else (s, [], [])
  else if msg.type == "response.audio.delta" then
    if msg.delta != "" then
      if !s.isStreamingAudio then (s, [], [])   -- early interruption check
      else (s, [], receiveAudio s msg.delta)
    else (s, [], [])
  else if msg.type == "response.audio.done" then (s, [], [])
  else if msg.type == "response.audio_transcript.done" then (s, [], [])
  else if msg.type == "response.function_call_arguments.done" then
    (s, handleFunctionCall registry msg, [])
  else if msg.type == "input_audio_buffer.speech_started" then
    (s, [], [])   -- first case: logging only
  else if msg.type == "input_audio_buffer.speech_stopped" then (s, [], [])
  else if msg.type == "input_audio_buffer.committed" then (s, [], [])
  else if msg.type == "input_audio_buffer.speech_started" then
    speechStartedBargeIn s now   -- dead: duplicate of the case three arms up
  else if msg.type == "error" then
    -- voice-override fallback; other error handling is logging only
    if s.voiceOverrideSent && !s.voiceOverrideFallbackDone && msg.isVoiceError then
      ({ s with voiceOverrideFallbackDone := true },
       [VoiceOut.sessionUpdateFallback, VoiceOut.responseCreate], [])
    else (s, [], [])
  else if msg.type == "response.cancelled" then
    if pyEqOpt s.currentResponseId msg.responseId then
      ({ s with currentResponseId := none, isStreamingAudio := false,
                audioStreamStartTime := none }, [], [])
    else (s, [], [])
  else if msg.type == "conversation.item.truncated" then (s, [], [])
  else if msg.type == "input_audio_buffer.cleared" then (s, [], [])
  else if msg.type == "output_audio_buffer.cleared" then
    if pyEqOpt s.currentResponseId msg.responseId then
      ({ s with isStreamingAudio := false }, [], [])
    else (s, [], [])
  else (s, [], [])

/-- A raw frame received from the Voice-Service websocket: either it
decodes (`json.loads` succeeds) or it is malformed. -/
inductive RawMsg where
  | ok (m : VoiceMsg)
  | malformed (raw : String)
  deriving Repr

/-- How `receive_messages_async` terminated: the websocket signalled
`ConnectionClosed` (graceful break) or an exception escaped the inner
`try` and was re-raised after setting `is_connected = False`. -/
inductive LoopExit where
  | closed
  | fatal (raw : String)
  deriving DecidableEq, Repr

/-- Models `receive_messages_async` over a finite stream of raw frames (the end
of the list stands for `ConnectionClosed`).  The inner `try` catches only
`ConnectionClosed`, so a `json.JSONDecodeError` from a malformed frame
reaches the outer handler: the error is logged, `is_connected` is set to
`False`, the exception is re-raised and the remaining frames are never
received. -/
def receiveMessagesAsync (registry : Registry) (now : Nat) :
    HandlerState → List RawMsg →
    HandlerState × List VoiceOut × List AcsOut × LoopExit
  | s, [] => ({ s with isConnected := false }, [], [], .closed)
  | s, .malformed raw :: _ => ({ s with isConnected := false }, [], [], .fatal raw)
  | s, .ok m :: rest =>
      let (s', v, a) := handleVoiceLiveMessage registry s m now
      let (sF, vR, aR, e) := receiveMessagesAsync registry now s' rest
      (sF, v ++ vR, a ++ aR, e)

/-- A turn `r` is active in state `s`: the state machine of the spec maps
onto the handler state by reading "status is created or streaming" as "the
tracked response id is truthy and equals `r`". -/
def activeTurn (s : HandlerState) (r : String) : Prop :=
  s.currentResponseId = some r ∧ r ≠ ""

instance (s : HandlerState) (r : String) : Decidable (activeTurn s r) := by
  unfold activeTurn; infer_instance

/-! ### Session establishment with retry
(src/app/communication_handler.py, `CommunicationHandler.start_conversation_async`) -/

/-- Result of one `await self.rt_client.connect()` attempt: success, a
rate-limiting failure (`"429" in str(e)`), or any other exception. -/
inductive ConnAttempt where
  | success
  | rateLimited
  | otherError
  deriving DecidableEq, Repr

/-- Outcome of the connect loop: `connected i sleeps` means attempt `i`
(0-based) succeeded after sleeping `sleeps` (in seconds, in order);
`failed sleeps` means the exception was re-raised to the caller and no
session was created. -/
inductive ConnResult where
  | connected (attempt : Nat) (sleeps : List Nat)
  | failed (sleeps : List Nat)
  deriving DecidableEq, Repr

/-- The retry loop of `start_conversation_async`:
`for attempt in range(max_retries)` with `max_retries = 3`, initial
`retry_delay = 1`, doubling after each rate-limited attempt; a 429 on the
last attempt, or any non-429 error, re-raises.  `remaining` counts the
loop iterations left (`remaining = max_retries - attempt`), so
`attempt < max_retries - 1` is `1 < remaining`. -/
def connectLoop (attempts : Nat → ConnAttempt) :
    Nat → Nat → Nat → List Nat → ConnResult
  | _, _, 0, sleeps => .failed sleeps.reverse
  | attempt, delay, remaining + 1, sleeps =>
      match attempts attempt with
      | .success => .connected attempt sleeps.reverse
      | .rateLimited =>
          if 0 < remaining then
            connectLoop attempts (attempt + 1) (delay * 2) remaining (delay :: sleeps)
          else .failed sleeps.reverse
      | .otherError => .failed sleeps.reverse

/-- Models the connection phase of `start_conversation_async`: 3 attempts,
starting delay 1 second. -/
def startConversationConnect (attempts : Nat → ConnAttempt) : ConnResult :=
  connectLoop attempts 0 1 3 []

/-- The exponential backoff sleeps before (0-based) attempt `i`:
1 s then 2 s. -/
def backoffSleeps : Nat → List Nat
  | 0 => []
  | 1 => [1]
  | _ => [1, 2]

/-! ## Derived specification helpers -/

/-- Registry with no handlers registered. -/
def noRegistry : Registry := fun _ => none

/-- Registry whose only handler (for `reset_password`) raises. -/
def exnRegistry : Registry := fun n =>
  if n == "reset_password" then some (fun _ => HandlerOutcome.exn) else none

/-- Registry every lookup of which yields a handler returning a marker
string, used to observe whether a handler was invoked. -/
def hitRegistry : Registry :=
  fun _ => some (fun _ => HandlerOutcome.textResult ("HANDLER_RAN"))

/-- The output payload `_handle_function_call` puts into the
`function_call_output` item, as a function of the parse outcome and the
resolved handler: the invalid-arguments failure, the handler result, the
processing-error failure, or the not-found failure. -/
def toolResultPayload (registry : Registry) (fnName : String) : FnArgs → String
  | .malformed _ => failureOutput ("Invalid function arguments received")
  | .parsed a =>
      match registry fnName with
      | some h =>
          match h a with
          | .textResult out => out
          | .jsonResult out => out
          | .exn => failureOutput ("Error processing " ++ fnName)
      | none => failureOutput ("Function " ++ fnName ++ " not found")

/-- Past the missing-name/missing-call-id guard, `_handle_function_call`
always sends exactly one `function_call_output` item (for the original
call id) followed by exactly one `response.create`. -/
theorem handleFunctionCall_roundtrip (registry : Registry) (msg : VoiceMsg)
    (hname : msg.fnName ≠ "") (hcall : msg.callId ≠ "") :
    handleFunctionCall registry msg
      = [VoiceOut.itemCreateFunctionOutput msg.callId
           (toolResultPayload registry msg.fnName msg.args),
         VoiceOut.responseCreate] := by
  have h1 : (msg.fnName == "") = false := by
    simpa using hname
  have h2 : (msg.callId == "") = false := by
    simpa using hcall
  unfold handleFunctionCall toolResultPayload
  rw [h1, h2]
  cases msg.args with
  | malformed raw => rfl
  | parsed a =>
      cases hr : registry msg.fnName with
      | none => simp [hr]
      | some h => cases hha : h a <;> simp [hr, hha]

/-! ## Claim C1 — outbound audio gating -/

/-- C1 (counterexample).  The claim says an outbound `response.audio.delta`
frame is forwarded to the telephony transport only if its response id
equals the current turn id; here the current turn is `R2` and streaming,
yet a late frame tagged `R1` is forwarded anyway — the relay never
compares response ids. -/
theorem c1_frame_with_stale_id_is_relayed :
    (handleVoiceLiveMessage noRegistry
        { currentResponseId := some ("R2"), isStreamingAudio := true }
        { type := "response.audio.delta", responseId := "R1", delta := "AAAA" } 0).2.2
      = [AcsOut.audioData ("AAAA")]
    ∧ ("R1" : String) ≠ "R2" := by
  constructor
  · rfl
  · decide

/-- C1 (amended).  The relay forwards an outbound audio frame if and only
if the local streaming flag is set (and the payload is non-empty); the
frame's response id is never consulted, so frames tagged with a stale
response id are dropped only while the flag is off (after an interruption
and before the next turn), and are relayed again as soon as a new turn
re-enables the flag.  State and the upstream channel are untouched. -/
theorem c1_relay_gates_on_streaming_flag_only (registry : Registry)
    (s : HandlerState) (rid d : String) (now : Nat) :
    handleVoiceLiveMessage registry s
        { type := "response.audio.delta", responseId := rid, delta := d } now
      = (s, [], if s.isStreamingAudio && d != "" then [AcsOut.audioData d] else []) := by
  unfold handleVoiceLiveMessage receiveAudio
  cases hb : s.isStreamingAudio <;> by_cases hd : d = "" <;> simp [hd, hb]

/-! ## Claim C2 — tool round-trip guarantee -/

/-- C2.  For every `response.function_call_arguments.done` event carrying a
function name and call id, processing sends exactly one tool-result
(`conversation.item.create` with a `function_call_output` referencing the
original call id) followed by exactly one continuation `response.create`,
in that order, for every possible registry — including one whose resolved
handler raises (`HandlerOutcome.exn`) — and changes no state. -/
theorem c2_tool_roundtrip (registry : Registry) (s : HandlerState) (now : Nat)
    (fn cid : String) (args : FnArgs) (rid : String)
    (hname : fn ≠ "") (hcall : cid ≠ "") :
    handleVoiceLiveMessage registry s
        { type := "response.function_call_arguments.done",
          fnName := fn, callId := cid, args := args, responseId := rid } now
      = (s, [VoiceOut.itemCreateFunctionOutput cid (toolResultPayload registry fn args),
             VoiceOut.responseCreate], []) := by
  have hfc := handleFunctionCall_roundtrip registry
      { type := "response.function_call_arguments.done",
        fnName := fn, callId := cid, args := args, responseId := rid } hname hcall
  unfold handleVoiceLiveMessage
  simp only [hfc]
  rfl

/-- C2 (witness).  A concrete raising handler: the failure result for the
original call id still precedes the single continuation request. -/
theorem c2_tool_roundtrip_witness :
    handleVoiceLiveMessage exnRegistry {}
        { type := "response.function_call_arguments.done",
          fnName := "reset_password", callId := "call-1",
          args := .parsed ("null"), responseId := "R1" } 0
      = ({}, [VoiceOut.itemCreateFunctionOutput ("call-1")
                (failureOutput ("Error processing reset_password")),
              VoiceOut.responseCreate], []) :=
  c2_tool_roundtrip exnRegistry {} 0 ("reset_password") ("call-1")
    (.parsed ("null")) ("R1") (by decide) (by decide)

/-! ## Claim C3 — speech-started interruption trigger -/

/-- A session state 12 seconds after call start, with turn `R1` created at
t = 0.5 s, streaming, and one tracked item: by the spec a `SpeechStarted`
event now MUST trigger the interruption protocol. -/
def stateAt12s : HandlerState :=
  { currentResponseId := some ("R1"), isStreamingAudio := true,
    callStartTime := some 0, audioStreamStartTime := some 500,
    responseItems := ["item-1"] }

/-- C3 (code bug).  The live `input_audio_buffer.speech_started` case only
logs: even at t = 12 s (outside the 10-second grace window, with an active
streaming turn well past the 200 ms guard) the event changes nothing and
emits nothing, because the interruption branch for this event type is a
duplicated `case` pattern that Python's first-match `match` never reaches.
The second conjunct evaluates that dead branch (`speechStartedBargeIn`) at
the same input, showing it would have run the full interruption protocol,
which is what the claim (and the spec) describe. -/
theorem c3_speech_started_is_dead_code :
    handleVoiceLiveMessage noRegistry stateAt12s
        { type := "input_audio_buffer.speech_started" } 12000
      = (stateAt12s, [], [])
    ∧ speechStartedBargeIn stateAt12s 12000
      = ({ stateAt12s with currentResponseId := none, isStreamingAudio := false,
                           audioStreamStartTime := none, audioQueue := [],
                           responseItems := [] },
         [VoiceOut.responseCancel, VoiceOut.inputBufferClear,
          VoiceOut.itemTruncate ("item-1") 0 12000, VoiceOut.outputBufferClear],
         []) := by
  constructor
  · rfl
  · rfl

/-! ## Claim C4 — stale TurnCompleted -/

/-- C4 (counterexample).  With current turn `R2` (streaming, one tracked
item), a `response.done` tagged with the different id `R1` is NOT ignored:
it clears the tracked turn id, stops streaming and drops the tracked
items, falsifying the claim that a stale `TurnCompleted` leaves the
turn state untouched. -/
theorem c4_stale_response_done_mutates_state :
    (handleVoiceLiveMessage noRegistry
        { currentResponseId := some ("R2"), isStreamingAudio := true,
          audioStreamStartTime := some 0, responseItems := ["item-9"] }
        { type := "response.done", responseId := "R1" } 5000).1
      = { currentResponseId := none, isStreamingAudio := false,
          audioStreamStartTime := none, responseItems := [] }
    ∧ ("R1" : String) ≠ "R2"
    ∧ (none : Option String) ≠ some ("R2") := by
  refine ⟨rfl, by decide, by decide⟩

/-- C4 (amended).  A `response.done` event resets the response tracking —
turn id to none, streaming flag off, stream start time and tracked items
cleared — unconditionally: the response identifier it carries is never
compared against the tracked one, so a stale completion resets the state
of the newer turn just like a matching one would.  Nothing is emitted. -/
theorem c4_response_done_resets_unconditionally (registry : Registry)
    (s : HandlerState) (rid : String) (now : Nat) :
    handleVoiceLiveMessage registry s
        { type := "response.done", responseId := rid } now
      = ({ s with currentResponseId := none, isStreamingAudio := false,
                  audioStreamStartTime := none, responseItems := [] }, [], []) := by
  rfl

/-! ## Claim C5 — at most one active turn -/

/-- C5.  A `response.created` carrying id `r2` makes `r2` the one tracked
turn: the resulting state tracks `r2` (status streaming), starts with the
previous turn's tracked items cleared, and no other turn id is active in
it — the previous turn, if any, has been deactivated before the new one is
observable.  Moreover, in ANY handler state at most one turn id is active,
since the handler keeps a single tracked response id. -/
theorem c5_single_active_turn (registry : Registry) (s : HandlerState)
    (r2 : String) (now : Nat) (hr2 : r2 ≠ "") :
    (handleVoiceLiveMessage registry s
        { type := "response.created", responseId := r2 } now).1.currentResponseId
      = some r2
    ∧ (handleVoiceLiveMessage registry s
        { type := "response.created", responseId := r2 } now).1.isStreamingAudio
      = true
    ∧ (handleVoiceLiveMessage registry s
        { type := "response.created", responseId := r2 } now).1.responseItems
      = []
    ∧ activeTurn (handleVoiceLiveMessage registry s
        { type := "response.created", responseId := r2 } now).1 r2
    ∧ (∀ r1 : String, r1 ≠ r2 →
        ¬ activeTurn (handleVoiceLiveMessage registry s
          { type := "response.created", responseId := r2 } now).1 r1)
    ∧ (∀ t : HandlerState, ∀ r r' : String,
        activeTurn t r → activeTurn t r' → r = r') := by
  refine ⟨rfl, rfl, rfl, ⟨rfl, hr2⟩, ?_, ?_⟩
  · intro r1 hne hact
    have h1 : (some r2 : Option String) = some r1 := hact.1
    exact hne (Option.some.inj h1).symm
  · intro t r r' h h'
    have := h.1.symm.trans h'.1
    simpa using this

/-- C5 (witness).  Concretely: with turn `R1` active (streaming, one
tracked item), a second `TurnCreated` for `R2` leaves a state in which
`R2` is active and `R1` is not, and the tracked items are cleared. -/
theorem c5_single_active_turn_witness :
    activeTurn (handleVoiceLiveMessage noRegistry
        { currentResponseId := some ("R1"), isStreamingAudio := true,
          audioStreamStartTime := some 0, responseItems := ["item-1"] }
        { type := "response.created", responseId := "R2" } 4000).1 ("R2")
    ∧ ¬ activeTurn (handleVoiceLiveMessage noRegistry
        { currentResponseId := some ("R1"), isStreamingAudio := true,
          audioStreamStartTime := some 0, responseItems := ["item-1"] }
        { type := "response.created", responseId := "R2" } 4000).1 ("R1")
    ∧ (handleVoiceLiveMessage noRegistry
        { currentResponseId := some ("R1"), isStreamingAudio := true,
          audioStreamStartTime := some 0, responseItems := ["item-1"] }
        { type := "response.created", responseId := "R2" } 4000).1.responseItems
      = [] := by
  have h := c5_single_active_turn noRegistry
      { currentResponseId := some ("R1"), isStreamingAudio := true,
        audioStreamStartTime := some 0, responseItems := ["item-1"] }
      ("R2") 4000 (by decide)
  exact ⟨h.2.2.2.1, h.2.2.2.2.1 ("R1") (by decide), h.2.2.1⟩

/-! ## Claim C6 — malformed payload handling -/

/-- C6 (counterexample).  A malformed frame followed by a well-formed
`response.created` for `R1`: the loop dies on the malformed frame — the
connection flag is dropped and the exception propagates (`LoopExit.fatal`)
— and the subsequent frame is never processed (no turn `R1` is tracked),
falsifying the claim that the message is dropped and the loop stays open. -/
theorem c6_malformed_frame_kills_loop :
    receiveMessagesAsync noRegistry 0 {}
        [RawMsg.malformed ("xyz"),
         RawMsg.ok { type := "response.created", responseId := "R1" }]
      = ({ isConnected := false }, [], [], LoopExit.fatal ("xyz"))
    ∧ ({ isConnected := false } : HandlerState).currentResponseId
      ≠ some ("R1") := by
  refine ⟨rfl, by decide⟩

/-- C6 (amended).  A raw message that fails to decode is fatal: only
`ConnectionClosed` is caught inside the receive loop, so the decode error
escapes to the outer handler, which logs it, sets `is_connected` to false
and re-raises — the rest of the stream is never processed and nothing is
emitted for it.  (The spec's claim that the message is dropped and the
stream stays open does not hold.) -/
theorem c6_malformed_frame_is_fatal (registry : Registry) (now : Nat)
    (s : HandlerState) (raw : String) (rest : List RawMsg) :
    receiveMessagesAsync registry now s (RawMsg.malformed raw :: rest)
      = ({ s with isConnected := false }, [], [], LoopExit.fatal raw) := by
  rfl

/-! ## Claim C7 — unparsable tool arguments -/

/-- C7.  A `response.function_call_arguments.done` whose accumulated
arguments failed to parse (for any raw text, e.g. an unterminated object)
yields exactly the structured failure result
`json.dumps` of success-false / "Invalid function arguments received"
for the original call id, followed by one continuation request — and this
holds for EVERY registry, i.e. no handler is resolved or invoked (the
output does not depend on the registry at all).  State is unchanged. -/
theorem c7_unparsable_args_failure_result (registry : Registry)
    (s : HandlerState) (now : Nat) (fn cid raw rid : String)
    (hname : fn ≠ "") (hcall : cid ≠ "") :
    handleVoiceLiveMessage registry s
        { type := "response.function_call_arguments.done",
          fnName := fn, callId := cid, args := .malformed raw,
          responseId := rid } now
      = (s, [VoiceOut.itemCreateFunctionOutput cid
               (failureOutput ("Invalid function arguments received")),
             VoiceOut.responseCreate], []) := by
  have hfc := handleFunctionCall_roundtrip registry
      { type := "response.function_call_arguments.done",
        fnName := fn, callId := cid, args := .malformed raw,
        responseId := rid } hname hcall
  unfold handleVoiceLiveMessage
  simp only [hfc]
  rfl

/-- C7 (witness).  Concretely with the arguments text of the spec
scenario and a registry that WOULD answer with a marker string if its
handler were ever invoked: the output is the failure payload, not the
marker. -/
theorem c7_unparsable_args_failure_result_witness :
    handleVoiceLiveMessage hitRegistry {}
        { type := "response.function_call_arguments.done",
          fnName := "lookup_user", callId := "call-7",
          args := .malformed ("\x7bbad json"), responseId := "R1" } 0
      = ({}, [VoiceOut.itemCreateFunctionOutput ("call-7")
                (failureOutput ("Invalid function arguments received")),
              VoiceOut.responseCreate], []) :=
  c7_unparsable_args_failure_result hitRegistry {} 0 ("lookup_user")
    ("call-7") ("\x7bbad json") ("R1") (by decide) (by decide)

/-! ## Claim C8 — truncation commands on interruption -/

/-- C8 (counterexample).  Interrupting a turn whose streaming started at
epoch 2000 ms, at epoch 5000 ms: the emitted `conversation.item.truncate`
carries `audio_end_ms = 5000`, the absolute wall-clock epoch time — not
3000, the elapsed time since the turn's start, as the claim requires. -/
theorem c8_truncate_uses_absolute_time :
    (handleUserInterruption
        { currentResponseId := some ("R1"), isStreamingAudio := true,
          audioStreamStartTime := some 2000, responseItems := ["item-1"] }
        5000 (fun _ => false)).2
      = [VoiceOut.responseCancel, VoiceOut.inputBufferClear,
         VoiceOut.itemTruncate ("item-1") 0 5000, VoiceOut.outputBufferClear]
    ∧ (5000 : Nat) ≠ 5000 - 2000 := by
  refine ⟨rfl, by decide⟩

/-- C8 (amended).  When the interruption protocol runs, one
`conversation.item.truncate` is attempted for every tracked conversation
item of the current turn, each carrying `audio_end_ms` equal to the
current ABSOLUTE wall-clock time in milliseconds (`int(time.time()*1000)`,
not relative to the turn's start); each send has its own error boundary,
so every item whose send does not fail gets its truncate command
regardless of failures on other items. -/
theorem c8_truncate_per_item_independent (s : HandlerState) (now : Nat)
    (truncFails : String → Bool) :
    (handleUserInterruption s now truncFails).2
      = (if pyTruthyStr s.currentResponseId then [VoiceOut.responseCancel] else [])
        ++ [VoiceOut.inputBufferClear]
        ++ (s.responseItems.filterMap fun i =>
              if truncFails i then none else some (VoiceOut.itemTruncate i 0 now))
        ++ [VoiceOut.outputBufferClear]
    ∧ (∀ i, i ∈ s.responseItems → truncFails i = false →
        VoiceOut.itemTruncate i 0 now ∈ (handleUserInterruption s now truncFails).2) := by
  refine ⟨rfl, ?_⟩
  intro i hi hok
  have hmem : VoiceOut.itemTruncate i 0 now ∈ s.responseItems.filterMap fun j =>
      if truncFails j then none else some (VoiceOut.itemTruncate j 0 now) := by
    refine List.mem_filterMap.2 ⟨i, hi, ?_⟩
    rw [hok]
    rfl
  simp only [handleUserInterruption, List.mem_append]
  tauto

/-- C8 (amended, witness).  Two tracked items where the truncate send for
`item-1` fails: `item-2` still receives its truncate command, stamped with
the absolute time 7000. -/
theorem c8_truncate_per_item_independent_witness :
    VoiceOut.itemTruncate ("item-2") 0 7000 ∈
      (handleUserInterruption
          { currentResponseId := some ("R1"), isStreamingAudio := true,
            audioStreamStartTime := some 6000,
            responseItems := ["item-1", "item-2"] }
          7000 (fun i => i == "item-1")).2 :=
  (c8_truncate_per_item_independent
      { currentResponseId := some ("R1"), isStreamingAudio := true,
        audioStreamStartTime := some 6000,
        responseItems := ["item-1", "item-2"] }
      7000 (fun i => i == "item-1")).2 ("item-2") (by decide) (by decide)

/-! ## Claim C9 — session establishment retry -/

/-- C9.  The connect loop of `start_conversation_async` is a complete
function of the first three attempt outcomes: an immediate success
connects with no sleeps; a rate-limited attempt is retried after an
exponentially growing sleep (1 s, then 2 s) up to the fixed cap of three
attempts; any non-transient error, and exhaustion of the retries, yields
`ConnResult.failed` — the exception is re-raised to the caller and no
session is created. -/
theorem c9_connect_bounded_backoff (attempts : Nat → ConnAttempt) :
    startConversationConnect attempts
      = (match attempts 0, attempts 1, attempts 2 with
         | .success, _, _ => .connected 0 []
         | .rateLimited, .success, _ => .connected 1 [1]
         | .rateLimited, .rateLimited, .success => .connected 2 [1, 2]
         | .rateLimited, .rateLimited, .rateLimited => .failed [1, 2]
         | .rateLimited, .rateLimited, .otherError => .failed [1, 2]
         | .rateLimited, .otherError, _ => .failed [1]
         | .otherError, _, _ => .failed []) := by
  rcases h0 : attempts 0 <;> rcases h1 : attempts 1 <;> rcases h2 : attempts 2 <;>
    simp [startConversationConnect, connectLoop, h0, h1, h2]

/-! ## Claim C10 — item-created interruption inside the grace window -/

/-- A session 3 seconds after call start (inside the 10-second startup
grace window), with turn `R1` created at the same instant as the call
(so also inside the 200 ms guard the instant it was created) and one
tracked item. -/
def stateAt3s : HandlerState :=
  { currentResponseId := some ("R1"), isStreamingAudio := true,
    callStartTime := some 0, audioStreamStartTime := some 0,
    responseItems := ["item-1"] }

/-- C10.  A `conversation.item.created` whose item has type `message` and
role `user`, arriving at t = 3 s — inside the 10-second startup grace
window — while a response id is tracked, runs the full multi-step
interruption protocol immediately: cancel, input-buffer clear, one
truncate per tracked item, output-buffer clear, and the local reset
(streaming off, turn dropped, items cleared).  Neither the grace window
(3000 < 10000 relative to `callStartTime`) nor the minimum-streaming
guard is consulted on this path. -/
theorem c10_item_created_interrupts_inside_grace_window :
    (3000 : Nat) - 0 < 10000
    ∧ handleVoiceLiveMessage noRegistry stateAt3s
        { type := "conversation.item.created", itemType := "message",
          itemRole := "user", itemId := "user-item-7" } 3000
      = ({ stateAt3s with currentResponseId := none, isStreamingAudio := false,
                          audioStreamStartTime := none, audioQueue := [],
                          responseItems := [] },
         [VoiceOut.responseCancel, VoiceOut.inputBufferClear,
          VoiceOut.itemTruncate ("item-1") 0 3000, VoiceOut.outputBufferClear],
         []) := by
  refine ⟨by decide, rfl⟩
